import Mathlib

/-!
# Verification of the Relative Collision Detection Engine

Shallow embedding of the collision-detection core of this repository:

* the Java class `RelativeCollisionDetector` (scene percentile analysis,
  per-object depth sampling, the six-factor danger scorer, direction/angle
  helpers, and the final ranking), and
* the JavaScript `CollisionDetectionService` wrapper with its pure-JS
  fallback implementation (`_analyzeWithJavaScriptFallback`).

Modelling conventions:

* Java `float` / JS `number` arithmetic is idealised as exact arithmetic:
  finite values are `ℚ`, and `Math.sqrt` / `Math.atan2` are `Real.sqrt` /
  `Complex.arg`, so square roots live in `ℝ`.  Float literals such as
  `0.2f` are read as the exact rationals they denote in the source text.
* The two divisions that the Java code performs without a zero guard
  (`normalizedCloseness` and `relativeCloseness`) are modelled with the
  explicit IEEE-style value type `FpVal`, which records the non-finite
  results (`+∞`, `-∞`, `NaN`) of dividing by zero exactly as Java float
  division produces them; the comparison `FpVal.gtQ` mirrors Java's `>`
  on floats (false on `NaN`, true on `+∞`).
* Java statements that can throw (`depthMap[0]` on an empty array,
  `depthMap[y][x]` past a row's end, `allDepths.get(0)` on an empty list)
  are modelled by `Option`: `none` is a thrown exception.
* `new Date().toISOString()` timestamps are wall-clock and are omitted
  from the service results.
* Input objects are modelled with all fields present (the JS wrapper
  substitutes a random id only when `objectId` is absent; we model callers
  that supply ids, which is the deterministic fragment the engine itself
  defines).
* Java `String.format` diagnostics: the engine's `reasonForDanger` records
  the numeric factor values the Java code formats (closeness, relative,
  position, total), as a list of reals rather than a decimal string.
-/

namespace RCD

/-- A depth map: rectangular grid of depth values, row major
(`float[][]` in Java, `Array<Array<number>>` in JS). -/
abbrev DepthMap := List (List ℚ)

/-- Bounding box `[x1, y1, x2, y2]` (Java `int[] bbox`). -/
structure BBox where
  x1 : ℤ
  y1 : ℤ
  x2 : ℤ
  y2 : ℤ
deriving DecidableEq, Repr

/-- `RelativeCollisionDetector.LabeledObject`: a labeled detection with a
bounding box. -/
structure LabeledObject where
  objectId : String
  label : String
  bbox : BBox
  detectionConfidence : ℚ
deriving DecidableEq, Repr

/-- `RelativeCollisionDetector.DangerLevel`, in Java declaration order
(so `ord` below is the Java `Enum.ordinal()`). -/
inductive DangerLevel where
  | CRITICAL_COLLISION
  | HIGH_WARNING
  | MODERATE_WARNING
  | LOW_WARNING
  | SAFE
deriving DecidableEq, Repr

/-- Java `Enum.ordinal()` for `DangerLevel`. -/
def DangerLevel.ord : DangerLevel → ℕ
  | .CRITICAL_COLLISION => 0
  | .HIGH_WARNING => 1
  | .MODERATE_WARNING => 2
  | .LOW_WARNING => 3
  | .SAFE => 4

/-- Ordinal of an optional danger level.  The `none` case stands for the
Java `null` field before assignment; it is never reached by the sorting in
`analyzeLabeledObjects`, which only sorts objects whose danger has been
assigned (Java would throw a `NullPointerException` otherwise). -/
def dangerOrd : Option DangerLevel → ℕ
  | none => 0
  | some d => d.ord

/-- `RelativeCollisionDetector.SceneAnalysis`: scene-wide depth statistics. -/
structure SceneAnalysis where
  backgroundDepth : ℚ
  foregroundThreshold : ℚ
  p25 : ℚ
  p50 : ℚ
  p75 : ℚ
  p90 : ℚ
  min : ℚ
  max : ℚ
deriving DecidableEq, Repr

/-- `RelativeCollisionDetector.DetectedObject`: a labeled object together
with its depth statistics and danger assessment.  `danger` and `direction`
are `Option` because the Java fields are reference types that stay `null`
until assigned (the empty-sample early return leaves `direction` null, and
`danger` is only assigned by the caller `analyzeLabeledObjects`). -/
structure DetectedObject where
  objectId : String
  label : String
  bbox : BBox
  centerX : ℚ
  centerY : ℚ
  maxDepth : ℚ
  medianDepth : ℚ
  depthVariance : ℚ
  depthGradient : ℝ
  danger : Option DangerLevel
  direction : Option String
  angleDeg : ℝ
  confidenceScore : ℝ
  reasonForDanger : List ℝ

/-- IEEE-style float value: a finite rational or one of the non-finite
values Java float division by zero produces. -/
inductive FpVal where
  | fin (q : ℚ)
  | posInf
  | negInf
  | nan
deriving DecidableEq, Repr

/-- Java float division `a / b`, keeping the IEEE results for a zero
denominator: `+∞` for positive numerator, `-∞` for negative, `NaN` for
`0/0`. -/
def fdiv (a b : ℚ) : FpVal :=
  if b = 0 then (if 0 < a then .posInf else if a < 0 then .negInf else .nan)
  else .fin (a / b)

/-- Java float comparison `x > c`: false whenever `x` is `NaN`, true for
`+∞`, false for `-∞`. -/
def FpVal.gtQ : FpVal → ℚ → Bool
  | .fin q, c => decide (c < q)
  | .posInf, _ => true
  | .negInf, _ => false
  | .nan, _ => false

/-- Width the Java code uses throughout: `depthMap[0].length`.  Callers in
the engine reach this only on a non-empty map (an empty map throws inside
`SceneAnalysis` first, modelled in `gatherAll`). -/
def mapWidth (depthMap : DepthMap) : ℕ := (depthMap.headD []).length

/-- `depthMap[y][x]` for an access the engine has already bounds-checked
(`0 ≤ x < mapWidth`, `0 ≤ y < height`, after a successful scene analysis
every row has at least `mapWidth` entries, so the defaults are never hit). -/
def getPix (depthMap : DepthMap) (y x : ℕ) : ℚ := (depthMap.getD y []).getD x 0

/-- The closed integer range `[a, b]` visited by `for (i = a; i <= b; i++)`
(empty when `b < a`). -/
def rangeClosed (a b : ℤ) : List ℤ := (List.range (b + 1 - a).toNat).map fun i => a + i

/-- The depth-value collection loop of `SceneAnalysis.analyzeScene`:
`width = depthMap[0].length`, then `depthMap[y][x]` for every
`y < height`, `x < width`.  `none` models the exceptions: `depthMap[0]`
on an empty map, and `depthMap[y][x]` when row `y` is shorter than
`width` (`ArrayIndexOutOfBoundsException`); otherwise each row contributes
its first `width` entries, in row-major order exactly as the loop does. -/
def gatherAll (depthMap : DepthMap) : Option (List ℚ) :=
  match depthMap with
  | [] => none
  | row0 :: _ =>
    let width := row0.length
    if depthMap.all fun row => width ≤ row.length
    then some (depthMap.flatMap fun row => row.take width)
    else none

/-- The percentile reads of `SceneAnalysis.analyzeScene`:
`Collections.sort` then `allDepths.get` at `0`, `n-1`, `n/4`, `n/2`,
`3n/4`, `9n/10`.  A `get` out of bounds (only possible for `n = 0`) is the
thrown `IndexOutOfBoundsException`, modelled as `none`. -/
def percentileReads (allDepths : List ℚ) : Option SceneAnalysis :=
  let sorted := List.insertionSort (· ≤ ·) allDepths
  let n := sorted.length
  (sorted.get? 0).bind fun mn =>
  (sorted.get? (n - 1)).bind fun mx =>
  (sorted.get? (n / 4)).bind fun q25 =>
  (sorted.get? (n / 2)).bind fun q50 =>
  (sorted.get? (3 * n / 4)).bind fun q75 =>
  (sorted.get? (9 * n / 10)).map fun q90 =>
  { min := mn, max := mx, p25 := q25, p50 := q50, p75 := q75, p90 := q90,
    backgroundDepth := q50,
    foregroundThreshold := q75 + (q90 - q75) * (1/2) }

/-- `RelativeCollisionDetector.SceneAnalysis.analyzeScene`. -/
def analyzeScene (depthMap : DepthMap) : Option SceneAnalysis :=
  (gatherAll depthMap).bind percentileReads

/-- The depth-sampling loop of `analyzeLabeledObject`: all `depthMap[y][x]`
with `y1 ≤ y ≤ y2`, `x1 ≤ x ≤ x2` (inclusive on both ends) that pass the
bounds check `x >= 0 && x < width && y >= 0 && y < height`, in loop order. -/
def sampleDepths (depthMap : DepthMap) (bbox : BBox) : List ℚ :=
  let height := depthMap.length
  let width := mapWidth depthMap
  (rangeClosed bbox.y1 bbox.y2).flatMap fun y =>
    (rangeClosed bbox.x1 bbox.x2).filterMap fun x =>
      if 0 ≤ x ∧ x < (width : ℤ) ∧ 0 ≤ y ∧ y < (height : ℤ)
      then some (getPix depthMap y.toNat x.toNat) else none

/-- Java's `(int)` cast on a float: truncation toward zero. -/
def jintCast (q : ℚ) : ℤ := q.num.tdiv (q.den : ℤ)

/-- `RelativeCollisionDetector.calculateLocalGradient`: 3×3 Sobel operator
at `(x, y)`, zero within one pixel of any map edge, magnitude normalised
by 8. -/
noncomputable def calculateLocalGradient (depthMap : DepthMap) (x y : ℤ) : ℝ :=
  let height := depthMap.length
  let width := mapWidth depthMap
  if x < 1 ∨ (width : ℤ) - 1 ≤ x ∨ y < 1 ∨ (height : ℤ) - 1 ≤ y then 0
  else
    let g : ℤ → ℤ → ℚ := fun yy xx => getPix depthMap yy.toNat xx.toNat
    let gx : ℚ :=
      (-1) * g (y-1) (x-1) + 1 * g (y-1) (x+1) +
      (-2) * g y (x-1) + 2 * g y (x+1) +
      (-1) * g (y+1) (x-1) + 1 * g (y+1) (x+1)
    let gy : ℚ :=
      (-1) * g (y-1) (x-1) - 2 * g (y-1) x - 1 * g (y-1) (x+1) +
      1 * g (y+1) (x-1) + 2 * g (y+1) x + 1 * g (y+1) (x+1)
    Real.sqrt ((gx * gx + gy * gy : ℚ) : ℝ) / 8

/-- `RelativeCollisionDetector.calculateDirection`.  The `y`, `width` and
`height` parameters are passed by the Java code; only `x` and `width` are
used — the result is purely horizontal (`0.2f` read as `1/5`). -/
def calculateDirection (x y : ℚ) (width height : ℕ) : String :=
  let centerX : ℚ := (width : ℚ) / 2
  let offsetX : ℚ := x - centerX
  if |offsetX| < (width : ℚ) * (1/5) then "center"
  else if offsetX < 0 then "left"
  else "right"

/-- `Math.atan2 y x`: the argument of the complex number `x + y·i`,
in `(-π, π]`, with `atan2 0 0 = 0`. -/
noncomputable def atan2 (y x : ℝ) : ℝ := Complex.arg ⟨x, y⟩

/-- `RelativeCollisionDetector.calculateAngle`:
`atan2(offsetX, |offsetY|) · 180/π`. -/
noncomputable def calculateAngle (x y : ℚ) (width height : ℕ) : ℝ :=
  let centerX : ℚ := (width : ℚ) / 2
  let centerY : ℚ := (height : ℚ) / 2
  let offsetX : ℚ := x - centerX
  let offsetY : ℚ := y - centerY
  atan2 ((offsetX : ℝ)) ((|offsetY| : ℚ) : ℝ) * 180 / Real.pi

/-- `RelativeCollisionDetector.analyzeLabeledObject`: centre, inclusive
bbox depth sampling, and either the zero-statistics early return (empty
sample set: `maxDepth = medianDepth = depthVariance = 0`, the remaining
fields keep their Java defaults — gradient `0`, angle `0`, `direction`
null) or sorted statistics, population variance, centre-pixel Sobel
gradient, direction and angle.  The `scene` parameter is passed by the
Java code but unused in its body. -/
noncomputable def analyzeLabeledObject (depthMap : DepthMap) (labeledObj : LabeledObject)
    (scene : SceneAnalysis) : DetectedObject :=
  let centerX : ℚ := ((labeledObj.bbox.x1 + labeledObj.bbox.x2 : ℤ) : ℚ) / 2
  let centerY : ℚ := ((labeledObj.bbox.y1 + labeledObj.bbox.y2 : ℤ) : ℚ) / 2
  let height := depthMap.length
  let width := mapWidth depthMap
  let depthSamples := sampleDepths depthMap labeledObj.bbox
  if depthSamples = [] then
    { objectId := labeledObj.objectId, label := labeledObj.label, bbox := labeledObj.bbox,
      centerX := centerX, centerY := centerY,
      maxDepth := 0, medianDepth := 0, depthVariance := 0,
      depthGradient := 0, danger := none, direction := none, angleDeg := 0,
      confidenceScore := 0, reasonForDanger := [] }
  else
    let sorted := List.insertionSort (· ≤ ·) depthSamples
    let n := sorted.length
    let mean : ℚ := sorted.sum / (n : ℚ)
    let variance : ℚ := (sorted.map fun d => (d - mean) * (d - mean)).sum / (n : ℚ)
    { objectId := labeledObj.objectId, label := labeledObj.label, bbox := labeledObj.bbox,
      centerX := centerX, centerY := centerY,
      maxDepth := sorted.getD (n - 1) 0,
      medianDepth := sorted.getD (n / 2) 0,
      depthVariance := variance,
      depthGradient := calculateLocalGradient depthMap (jintCast centerX) (jintCast centerY),
      danger := none,
      direction := some (calculateDirection centerX centerY width height),
      angleDeg := calculateAngle centerX centerY width height,
      confidenceScore := 0, reasonForDanger := [] }

/-- FACTOR 1 bucket map of `calculateDangerLevel` (`0.95f` etc. read as
exact rationals), applied to the `normalizedCloseness` float. -/
def closenessBuckets (c : FpVal) : ℚ :=
  if c.gtQ (19/20) then 1
  else if c.gtQ (17/20) then 7/10
  else if c.gtQ (3/4) then 1/2
  else if c.gtQ (13/20) then 3/10
  else 1/10

/-- FACTOR 2 bucket map of `calculateDangerLevel`, applied to the
`relativeCloseness` float. -/
def relativeBuckets (r : FpVal) : ℚ :=
  if r.gtQ 2 then 4/5
  else if r.gtQ (3/2) then 1/2
  else if r.gtQ (6/5) then 3/10
  else 1/10

/-- FACTOR 1 of `calculateDangerLevel`:
`normalizedCloseness = (obj.maxDepth - scene.min) / (scene.max - scene.min)`
(no zero guard in the source) fed through the closeness buckets. -/
def closenessScoreOf (obj : DetectedObject) (scene : SceneAnalysis) : ℚ :=
  closenessBuckets (fdiv (obj.maxDepth - scene.min) (scene.max - scene.min))

/-- FACTOR 2 of `calculateDangerLevel`:
`relativeCloseness = obj.medianDepth / scene.backgroundDepth`
(no zero guard in the source) fed through the relative buckets. -/
def relativeScoreOf (obj : DetectedObject) (scene : SceneAnalysis) : ℚ :=
  relativeBuckets (fdiv obj.medianDepth scene.backgroundDepth)

/-- FACTOR 3 of `calculateDangerLevel`:
`1 - distFromCenter / maxDistFromCenter`, multiplied by `1.3f` when the
centre is in the walking path (`centerY > height·0.5` and
`|centerX - width/2| < width·0.3`); no upper clamp. -/
noncomputable def positionScoreOf (obj : DetectedObject) (width height : ℕ) : ℝ :=
  let centerX : ℚ := (width : ℚ) / 2
  let centerY : ℚ := (height : ℚ) / 2
  let distSq : ℚ := (obj.centerX - centerX) * (obj.centerX - centerX) +
    (obj.centerY - centerY) * (obj.centerY - centerY)
  let maxDistSq : ℚ := centerX * centerX + centerY * centerY
  let positionScore : ℝ := 1 - Real.sqrt (distSq : ℝ) / Real.sqrt (maxDistSq : ℝ)
  if (height : ℚ) * (1/2) < obj.centerY ∧ |obj.centerX - centerX| < (width : ℚ) * (3/10)
  then positionScore * (13/10) else positionScore

/-- FACTOR 4 of `calculateDangerLevel`: `min(1, depthGradient · 3)`. -/
noncomputable def gradientScoreOf (obj : DetectedObject) : ℝ :=
  min 1 (obj.depthGradient * 3)

/-- FACTOR 5 of `calculateDangerLevel`:
`min(1, (bboxArea / frameArea) · 5)`.  `frameArea` is at least 1 whenever
the engine calls this (a successful scene analysis forces
`width, height ≥ 1`), so the division is by a nonzero denominator on every
engine path. -/
def sizeScoreOf (bbox : BBox) (width height : ℕ) : ℚ :=
  let area : ℤ := (bbox.x2 - bbox.x1) * (bbox.y2 - bbox.y1)
  let frameArea : ℤ := (width : ℤ) * (height : ℤ)
  min 1 (((area : ℚ) / (frameArea : ℚ)) * 5)

/-- FACTOR 6 of `calculateDangerLevel`:
`variance < 0.01 → 1; < 0.05 → 0.7; else 0.3`. -/
def uniformityScoreOf (obj : DetectedObject) : ℚ :=
  if obj.depthVariance < 1/100 then 1
  else if obj.depthVariance < 1/20 then 7/10
  else 3/10

/-- The weighted total of `calculateDangerLevel`, in the source's order:
`closeness·0.35 + relative·0.25 + position·0.20 + gradient·0.10 +
size·0.05 + uniformity·0.05`. -/
noncomputable def dangerScoreOf (obj : DetectedObject) (scene : SceneAnalysis)
    (width height : ℕ) : ℝ :=
  (closenessScoreOf obj scene : ℝ) * 0.35 +
  (relativeScoreOf obj scene : ℝ) * 0.25 +
  positionScoreOf obj width height * 0.2 +
  gradientScoreOf obj * 0.1 +
  (sizeScoreOf obj.bbox width height : ℝ) * 0.05 +
  (uniformityScoreOf obj : ℝ) * 0.05

/-- `RelativeCollisionDetector.calculateDangerLevel`: returns the level the
Java method returns, together with the two fields it assigns on the object
(`confidenceScore = dangerScore`, and the numeric factor values recorded
in `reasonForDanger`: closeness, relative, position, total). -/
noncomputable def calculateDangerLevel (obj : DetectedObject) (scene : SceneAnalysis)
    (depthMap : DepthMap) : DangerLevel × ℝ × List ℝ :=
  let height := depthMap.length
  let width := mapWidth depthMap
  let dangerScore : ℝ := dangerScoreOf obj scene width height
  let reason : List ℝ := [(closenessScoreOf obj scene : ℝ), (relativeScoreOf obj scene : ℝ),
    positionScoreOf obj width height, dangerScore]
  (if (0.75 : ℝ) ≤ dangerScore then .CRITICAL_COLLISION
   else if (0.55 : ℝ) ≤ dangerScore then .HIGH_WARNING
   else if (0.35 : ℝ) ≤ dangerScore then .MODERATE_WARNING
   else if (0.2 : ℝ) ≤ dangerScore then .LOW_WARNING
   else .SAFE, dangerScore, reason)

/-- One iteration of the per-object loop in `analyzeLabeledObjects`:
analyse the object, then assign `danger`, `confidenceScore` and
`reasonForDanger` from `calculateDangerLevel`. -/
noncomputable def analyzeAndScore (depthMap : DepthMap) (scene : SceneAnalysis)
    (labeledObj : LabeledObject) : DetectedObject :=
  let obj := analyzeLabeledObject depthMap labeledObj scene
  let r := calculateDangerLevel obj scene depthMap
  { obj with danger := some r.1, confidenceScore := r.2.1, reasonForDanger := r.2.2 }

/-- `RelativeCollisionDetector.analyzeLabeledObjects`: empty input list
returns an empty result before the scene is analysed; otherwise the scene
analysis runs (its exception propagates as `none`), every object is
analysed and scored in input order, and the result list is sorted with the
comparator `(a, b) -> b.danger.compareTo(a.danger)`.  Java's `List.sort`
is guaranteed stable, modelled by the (stable) insertion sort; an element
may precede another exactly when the comparator is `≤ 0`, i.e. when
`b.danger.ordinal() ≤ a.danger.ordinal()`. -/
noncomputable def analyzeLabeledObjects (inverseDepthMap : DepthMap)
    (labeledObjects : List LabeledObject) : Option (List DetectedObject) :=
  if labeledObjects = [] then some []
  else (analyzeScene inverseDepthMap).map fun scene =>
    let results := labeledObjects.map (analyzeAndScore inverseDepthMap scene)
    List.insertionSort (fun a b => dangerOrd b.danger ≤ dangerOrd a.danger) results

/-- Modelled from the spec: the danger classification threshold table of
§4.3 (inclusive lower bounds on the danger score), for comparison with the
classification chain inside `calculateDangerLevel`. -/
noncomputable def classifyDanger (s : ℝ) : DangerLevel :=
  if (0.75 : ℝ) ≤ s then .CRITICAL_COLLISION
  else if (0.55 : ℝ) ≤ s then .HIGH_WARNING
  else if (0.35 : ℝ) ≤ s then .MODERATE_WARNING
  else if (0.2 : ℝ) ≤ s then .LOW_WARNING
  else .SAFE

/-- Modelled from the spec: `relativeCloseness = medianDepth /
backgroundDepth`, "define as 0 when `backgroundDepth == 0`" (§4.3 item 2,
§7(c)), for comparison with the unguarded division the code performs. -/
def specRelativeCloseness (medianDepth backgroundDepth : ℚ) : FpVal :=
  if backgroundDepth = 0 then .fin 0 else .fin (medianDepth / backgroundDepth)

/-! ## The JavaScript service wrapper (`CollisionDetectionService`) -/

/-- An object produced by `_analyzeWithJavaScriptFallback` (the pure-JS
fallback path).  `dangerLevel` is the JS string constant. -/
structure FallbackObject where
  objectId : String
  label : String
  bbox : BBox
  centerX : ℚ
  centerY : ℚ
  direction : String
  angleDeg : ℝ
  dangerLevel : String
  confidenceScore : ℚ
  reasonForDanger : String
  maxDepth : ℚ
  medianDepth : ℚ
  depthVariance : ℚ
  depthGradient : ℚ

/-- A result object of `CollisionDetectionService.analyzeLabeledObjects`:
`{success: false, error}`, the empty `{success: true, objects: [],
message}`, a native-path success, or a (degraded) fallback success.
Timestamps are omitted (wall clock). -/
inductive ServiceResult where
  | failure (error : String)
  | emptySuccess (message : String)
  | nativeSuccess (objects : List DetectedObject)
  | fallbackSuccess (objects : List FallbackObject)

/-- Whether the JS result has `success: false`. -/
def ServiceResult.isFailure : ServiceResult → Bool
  | .failure _ => true
  | _ => false

/-- JS `Math.max(0, Math.min(hi, Math.floor(v)))` clamping; bbox
coordinates are integers, so `Math.floor` is the identity. -/
def clampJS (hi v : ℤ) : ℤ := max 0 (min hi v)

/-- The per-object analysis of `_analyzeWithJavaScriptFallback`: clamped
bbox sampling guarded by `depthMap[y] && depthMap[y][x] !== undefined`,
median/min/max with `0.5` defaults on an empty sample set, thirds-based
direction with a vertical component, `atan2`-angle from the frame centre,
and a danger level from `minDepth` thresholds.  (`Math.min(...samples)`
and `Math.max(...samples)` are read off the sorted samples; the JS `sort`
mutates the array before they are computed, which does not change the
multiset.)  `confidenceScore` is the detection confidence, not a danger
score. -/
noncomputable def fallbackAnalyzeObject (depthMap : DepthMap) (obj : LabeledObject) :
    FallbackObject :=
  let depthHeight := depthMap.length
  let depthWidth := mapWidth depthMap
  let clampedX1 := clampJS ((depthWidth : ℤ) - 1) obj.bbox.x1
  let clampedY1 := clampJS ((depthHeight : ℤ) - 1) obj.bbox.y1
  let clampedX2 := clampJS ((depthWidth : ℤ) - 1) obj.bbox.x2
  let clampedY2 := clampJS ((depthHeight : ℤ) - 1) obj.bbox.y2
  let depthSamples : List ℚ :=
    (rangeClosed clampedY1 clampedY2).flatMap fun y =>
      (rangeClosed clampedX1 clampedX2).filterMap fun x =>
        (depthMap.get? y.toNat).bind fun row => row.get? x.toNat
  let sorted := List.insertionSort (· ≤ ·) depthSamples
  let medianDepth : ℚ := if depthSamples = [] then 1/2 else sorted.getD (depthSamples.length / 2) 0
  let minDepth : ℚ := if depthSamples = [] then 1/2 else sorted.getD 0 0
  let maxDepth : ℚ := if depthSamples = [] then 1/2 else sorted.getD (sorted.length - 1) 0
  let centerX : ℚ := ((obj.bbox.x1 + obj.bbox.x2 : ℤ) : ℚ) / 2
  let centerY : ℚ := ((obj.bbox.y1 + obj.bbox.y2 : ℤ) : ℚ) / 2
  let horizontal : String :=
    if centerX < (depthWidth : ℚ) * (33/100) then "left"
    else if (depthWidth : ℚ) * (67/100) < centerX then "right"
    else "center"
  let direction : String :=
    if centerY < (depthHeight : ℚ) * (33/100) then horizontal ++ " top"
    else if (depthHeight : ℚ) * (67/100) < centerY then horizontal ++ " bottom"
    else horizontal
  let angleDeg : ℝ :=
    atan2 (((centerY - (depthHeight : ℚ) / 2 : ℚ)) : ℝ)
      (((centerX - (depthWidth : ℚ) / 2 : ℚ)) : ℝ) * 180 / Real.pi
  let danger : String × String :=
    if minDepth < 3/10 then ("CRITICAL_COLLISION", "Object very close (depth < 0.3)")
    else if minDepth < 2/5 then ("HIGH_WARNING", "Object close (depth < 0.4)")
    else if minDepth < 1/2 then ("MODERATE_WARNING", "Object at moderate distance (depth < 0.5)")
    else if minDepth < 3/5 then ("LOW_WARNING", "Object detected (depth < 0.6)")
    else ("SAFE", "")
  { objectId := obj.objectId, label := obj.label, bbox := obj.bbox,
    centerX := centerX, centerY := centerY,
    direction := direction, angleDeg := angleDeg,
    dangerLevel := danger.1, confidenceScore := obj.detectionConfidence,
    reasonForDanger := danger.2,
    maxDepth := maxDepth, medianDepth := medianDepth,
    depthVariance := 0, depthGradient := 0 }

/-- `CollisionDetectionService._analyzeWithJavaScriptFallback`: fails on an
empty map or a zero-width first row (`depthMap[0]?.length || 0`), otherwise
analyses every object. -/
noncomputable def analyzeWithJavaScriptFallback (depthMap : DepthMap)
    (labeledObjects : List LabeledObject) : ServiceResult :=
  if depthMap = [] then .failure "Invalid depth map"
  else
    let depthHeight := depthMap.length
    let depthWidth := mapWidth depthMap
    if depthHeight = 0 ∨ depthWidth = 0 then .failure "Invalid depth map dimensions"
    else .fallbackSuccess (labeledObjects.map (fallbackAnalyzeObject depthMap))

/-- `CollisionDetectionService.analyzeLabeledObjects`: the early guards
(empty map → failure, empty object list → empty success), then either the
native bridge (the Java engine; a thrown Java exception is caught and
falls back to the JS implementation) or, when the bridge is unavailable,
the JS fallback directly. -/
noncomputable def serviceAnalyzeLabeledObjects (bridgeAvailable : Bool)
    (depthMap : DepthMap) (labeledObjects : List LabeledObject) : ServiceResult :=
  if depthMap = [] then .failure "Invalid depth map"
  else if labeledObjects = [] then .emptySuccess "No objects to analyze"
  else if bridgeAvailable then
    match analyzeLabeledObjects depthMap labeledObjects with
    | some objects => .nativeSuccess objects
    | none => analyzeWithJavaScriptFallback depthMap labeledObjects
  else analyzeWithJavaScriptFallback depthMap labeledObjects

end RCD

namespace RCD

/-! ## Helper lemmas and concrete fixtures -/

/-- Square root of a rational perfect square. -/
theorem sqrt_ratCast_sq (q a : ℚ) (ha : 0 ≤ a) (h : q = a * a) :
    Real.sqrt ((q : ℚ) : ℝ) = (a : ℝ) := by
  subst h
  push_cast
  exact Real.sqrt_mul_self (by exact_mod_cast ha)

/-- A 1×1 depth map and its scene statistics. -/
def map1x1 : DepthMap := [[1/2]]

def scene1x1 : SceneAnalysis :=
  { min := 1/2, max := 1/2, p25 := 1/2, p50 := 1/2, p75 := 1/2, p90 := 1/2,
    backgroundDepth := 1/2, foregroundThreshold := 1/2 }

theorem analyzeScene_map1x1 : analyzeScene map1x1 = some scene1x1 := by
  simp [analyzeScene, map1x1, gatherAll, percentileReads, scene1x1,
    List.insertionSort, List.orderedInsert]

/-- A zero-area box sitting on the single pixel of `map1x1`. -/
def objZeroArea : LabeledObject := ⟨"obj_1", "box", ⟨0, 0, 0, 0⟩, 1⟩

/-- A box entirely outside `map1x1`. -/
def objOutside : LabeledObject := ⟨"obj_2", "box", ⟨5, 5, 6, 6⟩, 1⟩

/-- A 1×4 depth map whose median (`p50`) is zero while its last pixel is 1. -/
def mapRow4 : DepthMap := [[0, 0, 0, 1]]

def sceneRow4 : SceneAnalysis :=
  { min := 0, max := 1, p25 := 0, p50 := 0, p75 := 1, p90 := 1,
    backgroundDepth := 0, foregroundThreshold := 1 }

theorem analyzeScene_mapRow4 : analyzeScene mapRow4 = some sceneRow4 := by
  simp [analyzeScene, mapRow4, gatherAll, percentileReads, sceneRow4,
    List.insertionSort, List.orderedInsert]

/-- A 1×1 box over the bright pixel of `mapRow4`. -/
def objBright : LabeledObject := ⟨"obj_3", "box", ⟨3, 0, 3, 0⟩, 1⟩

/-! ## C3 -/

/-- C3 (counterexample): a zero-area box (`x1 = x2`, `y1 = y2`) lying on the
map samples its single pixel inclusively, so its statistics are the pixel's
value, not the claimed zero fallback. -/
theorem degenerate_box_counterexample :
    analyzeScene map1x1 = some scene1x1 ∧
    objZeroArea.bbox.x1 = objZeroArea.bbox.x2 ∧ objZeroArea.bbox.y1 = objZeroArea.bbox.y2 ∧
    (analyzeLabeledObject map1x1 objZeroArea scene1x1).maxDepth = 1/2 ∧
    ((1/2 : ℚ) ≠ 0) := by
  refine ⟨analyzeScene_map1x1, rfl, rfl, ?_, by norm_num⟩
  simp [analyzeLabeledObject, sampleDepths, rangeClosed, getPix, mapWidth, objZeroArea, map1x1,
    List.insertionSort, List.orderedInsert, List.range_succ]

/-- C3 (amended): a bounding box with no in-bounds pixel yields the zero
fallback statistics `maxDepth = medianDepth = depthVariance = 0` (and the
analysis is a total function, so it cannot crash). -/
theorem empty_sample_box_zero_stats (m : DepthMap) (lo : LabeledObject) (scene : SceneAnalysis)
    (h : sampleDepths m lo.bbox = []) :
    (analyzeLabeledObject m lo scene).maxDepth = 0 ∧
    (analyzeLabeledObject m lo scene).medianDepth = 0 ∧
    (analyzeLabeledObject m lo scene).depthVariance = 0 := by
  simp [analyzeLabeledObject, h]

theorem empty_sample_box_zero_stats_witness :
    sampleDepths map1x1 objOutside.bbox = [] ∧
    ((analyzeLabeledObject map1x1 objOutside scene1x1).maxDepth = 0 ∧
     (analyzeLabeledObject map1x1 objOutside scene1x1).medianDepth = 0 ∧
     (analyzeLabeledObject map1x1 objOutside scene1x1).depthVariance = 0) := by
  have h : sampleDepths map1x1 objOutside.bbox = [] := by
    simp [sampleDepths, rangeClosed, objOutside, map1x1, mapWidth, List.range_succ]
  exact ⟨h, empty_sample_box_zero_stats map1x1 objOutside scene1x1 h⟩

/-! ## C9 -/

/-- C9: the analysis is deterministic — identical inputs give identical
outputs (the embedding of `analyzeLabeledObjects` is a pure function of the
depth map and the object list; the Java class has no fields and reads no
global state). -/
theorem analyze_deterministic (m1 m2 : DepthMap) (l1 l2 : List LabeledObject)
    (hm : m1 = m2) (hl : l1 = l2) :
    analyzeLabeledObjects m1 l1 = analyzeLabeledObjects m2 l2 := by
  rw [hm, hl]

theorem analyze_deterministic_witness :
    map1x1 = map1x1 ∧ ([objZeroArea] = [objZeroArea]) ∧
    analyzeLabeledObjects map1x1 [objZeroArea] = analyzeLabeledObjects map1x1 [objZeroArea] :=
  ⟨rfl, rfl, analyze_deterministic _ _ _ _ rfl rfl⟩

/-! ## C1 -/

/-- C1: for an object analysed against a depth map with at least one pixel,
the stored `confidenceScore` is exactly the weighted sum
`0.35·closeness + 0.25·relative + 0.20·position + 0.10·gradient +
0.05·size + 0.05·uniformity`, and the assigned danger level is that score
classified by the inclusive threshold table (`≥0.75` critical, `≥0.55`
high, `≥0.35` moderate, `≥0.20` low, else safe); the confidence score is
the danger score itself. -/
theorem danger_score_weighted_sum (m : DepthMap) (scene : SceneAnalysis) (lo : LabeledObject)
    (hs : analyzeScene m = some scene) :
    (analyzeAndScore m scene lo).confidenceScore =
      0.35 * (closenessScoreOf (analyzeLabeledObject m lo scene) scene : ℝ) +
      0.25 * (relativeScoreOf (analyzeLabeledObject m lo scene) scene : ℝ) +
      0.2 * positionScoreOf (analyzeLabeledObject m lo scene) (mapWidth m) m.length +
      0.1 * gradientScoreOf (analyzeLabeledObject m lo scene) +
      0.05 * (sizeScoreOf (analyzeLabeledObject m lo scene).bbox (mapWidth m) m.length : ℝ) +
      0.05 * (uniformityScoreOf (analyzeLabeledObject m lo scene) : ℝ) ∧
    (analyzeAndScore m scene lo).danger =
      some (classifyDanger ((analyzeAndScore m scene lo).confidenceScore)) := by
  constructor
  · simp only [analyzeAndScore, calculateDangerLevel, dangerScoreOf]
    ring
  · simp only [analyzeAndScore, calculateDangerLevel, classifyDanger, dangerScoreOf]

theorem danger_score_weighted_sum_witness :
    analyzeScene map1x1 = some scene1x1 ∧
    ((analyzeAndScore map1x1 scene1x1 objZeroArea).confidenceScore =
      0.35 * (closenessScoreOf (analyzeLabeledObject map1x1 objZeroArea scene1x1) scene1x1 : ℝ) +
      0.25 * (relativeScoreOf (analyzeLabeledObject map1x1 objZeroArea scene1x1) scene1x1 : ℝ) +
      0.2 * positionScoreOf (analyzeLabeledObject map1x1 objZeroArea scene1x1) (mapWidth map1x1)
        map1x1.length +
      0.1 * gradientScoreOf (analyzeLabeledObject map1x1 objZeroArea scene1x1) +
      0.05 * (sizeScoreOf (analyzeLabeledObject map1x1 objZeroArea scene1x1).bbox
        (mapWidth map1x1) map1x1.length : ℝ) +
      0.05 * (uniformityScoreOf (analyzeLabeledObject map1x1 objZeroArea scene1x1) : ℝ) ∧
     (analyzeAndScore map1x1 scene1x1 objZeroArea).danger =
      some (classifyDanger ((analyzeAndScore map1x1 scene1x1 objZeroArea).confidenceScore))) :=
  ⟨analyzeScene_map1x1,
   danger_score_weighted_sum map1x1 scene1x1 objZeroArea analyzeScene_map1x1⟩

/-! ## C2 -/

/-- C2 (counterexample): the code has no zero guard — on a scene whose
background (p50) depth is 0, an object of positive median depth gets the
relative ratio `+∞` (not the claimed 0), so its relative factor takes the
top bucket 0.8, whereas the spec's "define as 0" would put it in the bottom
bucket 0.1. -/
theorem division_guard_counterexample :
    analyzeScene mapRow4 = some sceneRow4 ∧
    sceneRow4.backgroundDepth = 0 ∧
    (analyzeLabeledObject mapRow4 objBright sceneRow4).medianDepth = 1 ∧
    fdiv (analyzeLabeledObject mapRow4 objBright sceneRow4).medianDepth
      sceneRow4.backgroundDepth = FpVal.posInf ∧
    FpVal.posInf ≠ FpVal.fin 0 ∧
    relativeScoreOf (analyzeLabeledObject mapRow4 objBright sceneRow4) sceneRow4 = 4/5 ∧
    relativeBuckets (specRelativeCloseness 1 0) = 1/10 := by
  have hmed : (analyzeLabeledObject mapRow4 objBright sceneRow4).medianDepth = 1 := by
    simp [analyzeLabeledObject, sampleDepths, rangeClosed, getPix, mapWidth, objBright, mapRow4,
      List.insertionSort, List.orderedInsert, List.range_succ]
  refine ⟨analyzeScene_mapRow4, rfl, hmed, ?_, by simp, ?_, ?_⟩
  · rw [hmed]
    simp [fdiv, sceneRow4]
  · rw [relativeScoreOf, hmed]
    simp [fdiv, sceneRow4, relativeBuckets, FpVal.gtQ]
  · norm_num [specRelativeCloseness, relativeBuckets, FpVal.gtQ]

/-- C2 (amended): the two ratios are computed without zero guards.  When
`scene.max = scene.min` the closeness ratio is non-finite (`NaN` or `-∞`
for any object drawn from that scene, whose `maxDepth` is at most
`scene.max`), and the closeness factor falls to the distant bucket 0.1;
when the background depth is 0 and the object's median depth is positive,
the relative ratio is `+∞` and the relative factor takes the top bucket
0.8.  In every case both factors are finite rationals drawn from their
bucket tables, so no non-finite value reaches the final danger score or
the classification. -/
theorem division_by_zero_factor_behavior (obj : DetectedObject) (scene : SceneAnalysis)
    (hminmax : scene.max = scene.min) (hle : obj.maxDepth ≤ scene.max)
    (hbg : scene.backgroundDepth = 0) (hmed : 0 < obj.medianDepth) :
    closenessScoreOf obj scene = 1/10 ∧
    relativeScoreOf obj scene = 4/5 ∧
    (∀ v : FpVal, closenessBuckets v = 1/10 ∨ closenessBuckets v = 3/10 ∨
      closenessBuckets v = 1/2 ∨ closenessBuckets v = 7/10 ∨ closenessBuckets v = 1) ∧
    (∀ v : FpVal, relativeBuckets v = 1/10 ∨ relativeBuckets v = 3/10 ∨
      relativeBuckets v = 1/2 ∨ relativeBuckets v = 4/5) := by
  refine ⟨?_, ?_, ?_, ?_⟩
  · have hnum : obj.maxDepth - scene.min ≤ 0 := by
      rw [← hminmax]; linarith
    rw [closenessScoreOf, hminmax, sub_self]
    rw [fdiv, if_pos rfl]
    rcases lt_or_eq_of_le hnum with h | h
    · rw [if_neg (by linarith), if_pos h]
      simp [closenessBuckets, FpVal.gtQ]
    · rw [h]
      simp [closenessBuckets, FpVal.gtQ]
  · rw [relativeScoreOf, hbg, fdiv, if_pos rfl, if_pos hmed]
    simp [relativeBuckets, FpVal.gtQ]
  · intro v
    rw [closenessBuckets]
    split_ifs <;> simp
  · intro v
    rw [relativeBuckets]
    split_ifs <;> simp

/-- A detected object and a degenerate scene instantiating the
division-by-zero hypotheses. -/
noncomputable def objDivZero : DetectedObject :=
  { objectId := "obj_4", label := "box", bbox := ⟨0, 0, 0, 0⟩,
    centerX := 0, centerY := 0, maxDepth := 0, medianDepth := 1,
    depthVariance := 0, depthGradient := 0, danger := none, direction := none,
    angleDeg := 0, confidenceScore := 0, reasonForDanger := [] }

def sceneDivZero : SceneAnalysis :=
  { min := 0, max := 0, p25 := 0, p50 := 0, p75 := 0, p90 := 0,
    backgroundDepth := 0, foregroundThreshold := 0 }

theorem division_by_zero_factor_behavior_witness :
    sceneDivZero.max = sceneDivZero.min ∧ objDivZero.maxDepth ≤ sceneDivZero.max ∧
    sceneDivZero.backgroundDepth = 0 ∧ (0 : ℚ) < objDivZero.medianDepth ∧
    (closenessScoreOf objDivZero sceneDivZero = 1/10 ∧
     relativeScoreOf objDivZero sceneDivZero = 4/5 ∧
     (∀ v : FpVal, closenessBuckets v = 1/10 ∨ closenessBuckets v = 3/10 ∨
       closenessBuckets v = 1/2 ∨ closenessBuckets v = 7/10 ∨ closenessBuckets v = 1) ∧
     (∀ v : FpVal, relativeBuckets v = 1/10 ∨ relativeBuckets v = 3/10 ∨
       relativeBuckets v = 1/2 ∨ relativeBuckets v = 4/5)) :=
  ⟨rfl, le_refl _, rfl, by norm_num [objDivZero],
   division_by_zero_factor_behavior objDivZero sceneDivZero rfl (le_refl _) rfl
     (by norm_num [objDivZero])⟩

end RCD

namespace RCD

/-! ## C8 -/

/-- C8: on a depth map with at least one collected pixel, the scene
analysis succeeds (every percentile index `0`, `n/4`, `n/2`, `3n/4`,
`9n/10`, `n-1` is in bounds for `n ≥ 1`), and the resulting statistics are
ordered `min ≤ p25 ≤ p50 ≤ p75 ≤ p90 ≤ max`. -/
theorem scene_percentiles_ordered (m : DepthMap) (l : List ℚ)
    (hg : gatherAll m = some l) (hne : l ≠ []) :
    ∃ s, analyzeScene m = some s ∧
      s.min ≤ s.p25 ∧ s.p25 ≤ s.p50 ∧ s.p50 ≤ s.p75 ∧ s.p75 ≤ s.p90 ∧ s.p90 ≤ s.max := by
  have hs : List.Sorted (· ≤ ·) (List.insertionSort (· ≤ ·) l) :=
    List.sorted_insertionSort _ l
  set L := List.insertionSort (· ≤ ·) l with hL
  have h0 : 0 < L.length := by
    rw [hL, List.length_insertionSort]
    exact List.length_pos.mpr hne
  have h1 : L.length / 4 < L.length := by omega
  have h2 : L.length / 2 < L.length := by omega
  have h3 : 3 * L.length / 4 < L.length := by omega
  have h4 : 9 * L.length / 10 < L.length := by omega
  have h5 : L.length - 1 < L.length := by omega
  have mono : ∀ (i j : ℕ) (hi : i < L.length) (hj : j < L.length), i ≤ j →
      L.get ⟨i, hi⟩ ≤ L.get ⟨j, hj⟩ := by
    intro i j hi hj hij
    rcases Nat.lt_or_ge i j with h | h
    · exact List.pairwise_iff_get.mp hs ⟨i, hi⟩ ⟨j, hj⟩ h
    · have hij2 : i = j := le_antisymm hij h
      subst hij2
      exact le_refl _
  refine ⟨{ min := L.get ⟨0, h0⟩, max := L.get ⟨L.length - 1, h5⟩,
            p25 := L.get ⟨L.length / 4, h1⟩, p50 := L.get ⟨L.length / 2, h2⟩,
            p75 := L.get ⟨3 * L.length / 4, h3⟩, p90 := L.get ⟨9 * L.length / 10, h4⟩,
            backgroundDepth := L.get ⟨L.length / 2, h2⟩,
            foregroundThreshold := L.get ⟨3 * L.length / 4, h3⟩ +
              (L.get ⟨9 * L.length / 10, h4⟩ - L.get ⟨3 * L.length / 4, h3⟩) * (1/2) },
         ?_, ?_, ?_, ?_, ?_, ?_⟩
  · rw [analyzeScene, hg]
    show percentileReads l = _
    simp only [percentileReads, ← hL]
    rw [List.get?_eq_get h0, List.get?_eq_get h5, List.get?_eq_get h1,
        List.get?_eq_get h2, List.get?_eq_get h3, List.get?_eq_get h4]
    rfl
  · exact mono 0 (L.length / 4) h0 h1 (by omega)
  · exact mono (L.length / 4) (L.length / 2) h1 h2 (by omega)
  · exact mono (L.length / 2) (3 * L.length / 4) h2 h3 (by omega)
  · exact mono (3 * L.length / 4) (9 * L.length / 10) h3 h4 (by omega)
  · exact mono (9 * L.length / 10) (L.length - 1) h4 h5 (by omega)

theorem scene_percentiles_ordered_witness :
    gatherAll [[(1/2 : ℚ), 1/4]] = some [1/2, 1/4] ∧ (([(1/2 : ℚ), 1/4] : List ℚ) ≠ []) ∧
    (∃ s, analyzeScene [[(1/2 : ℚ), 1/4]] = some s ∧
      s.min ≤ s.p25 ∧ s.p25 ≤ s.p50 ∧ s.p50 ≤ s.p75 ∧ s.p75 ≤ s.p90 ∧ s.p90 ≤ s.max) := by
  have hg : gatherAll [[(1/2 : ℚ), 1/4]] = some [1/2, 1/4] := by
    simp [gatherAll]
  exact ⟨hg, by simp, scene_percentiles_ordered _ _ hg (by simp)⟩

end RCD

namespace RCD

/-! ## C4 -/

/-- C4 (counterexample): an analysed object whose centre lies in the top
vertical third gets the purely horizontal direction `"left"` — the engine's
`calculateDirection` never appends a vertical component. -/
theorem direction_no_vertical_counterexample :
    analyzeScene map1x1 = some scene1x1 ∧
    (analyzeLabeledObject map1x1 objZeroArea scene1x1).centerY <
      (map1x1.length : ℚ) * (33/100) ∧
    (analyzeLabeledObject map1x1 objZeroArea scene1x1).direction = some "left" ∧
    ("left" : String) ≠ "left top" ∧ ("left" : String) ≠ "left bottom" := by
  have hsampZ : sampleDepths [[(1/2 : ℚ)]] ({ x1 := 0, y1 := 0, x2 := 0, y2 := 0 } : BBox) =
      [1/2] := by
    simp [sampleDepths, rangeClosed, getPix, mapWidth, List.range_succ]
  have habs : |(1/2 : ℚ)| = 1/2 := abs_of_pos (by norm_num)
  refine ⟨analyzeScene_map1x1, ?_, ?_, by simp, by simp⟩
  · norm_num [analyzeLabeledObject, map1x1, objZeroArea, hsampZ]
  · norm_num [analyzeLabeledObject, map1x1, objZeroArea, hsampZ, calculateDirection,
      mapWidth, habs, List.insertionSort, List.orderedInsert]

/-- C4 (amended): the direction of an analysed object (with at least one
in-bounds sample) is the horizontal bucket alone — `"center"` exactly when
the horizontal offset magnitude is below `width·0.2`, otherwise `"left"`
or `"right"` by the sign of the offset; no vertical component exists in
the engine (the vertical thirds appear only in the JS fallback). -/
theorem direction_horizontal_only (m : DepthMap) (lo : LabeledObject) (scene : SceneAnalysis)
    (h : sampleDepths m lo.bbox ≠ []) :
    ((analyzeLabeledObject m lo scene).direction = some "left" ∨
     (analyzeLabeledObject m lo scene).direction = some "center" ∨
     (analyzeLabeledObject m lo scene).direction = some "right") ∧
    ((analyzeLabeledObject m lo scene).direction = some "center" ↔
      |(analyzeLabeledObject m lo scene).centerX - (mapWidth m : ℚ) / 2| <
        (mapWidth m : ℚ) * (1/5)) := by
  have hd : (analyzeLabeledObject m lo scene).direction =
      some (calculateDirection (((lo.bbox.x1 + lo.bbox.x2 : ℤ) : ℚ) / 2)
        (((lo.bbox.y1 + lo.bbox.y2 : ℤ) : ℚ) / 2) (mapWidth m) m.length) := by
    simp [analyzeLabeledObject, h]
  have hcx : (analyzeLabeledObject m lo scene).centerX =
      ((lo.bbox.x1 + lo.bbox.x2 : ℤ) : ℚ) / 2 := by
    simp [analyzeLabeledObject, h]
  rw [hd, hcx, calculateDirection]
  constructor
  · split_ifs <;> simp
  · split_ifs with h1 h2
    · simpa using h1
    · exact iff_of_false (by simp) (by simpa using h1)
    · exact iff_of_false (by simp) (by simpa using h1)

theorem direction_horizontal_only_witness :
    sampleDepths map1x1 objZeroArea.bbox ≠ [] ∧
    (((analyzeLabeledObject map1x1 objZeroArea scene1x1).direction = some "left" ∨
      (analyzeLabeledObject map1x1 objZeroArea scene1x1).direction = some "center" ∨
      (analyzeLabeledObject map1x1 objZeroArea scene1x1).direction = some "right") ∧
     ((analyzeLabeledObject map1x1 objZeroArea scene1x1).direction = some "center" ↔
       |(analyzeLabeledObject map1x1 objZeroArea scene1x1).centerX -
         (mapWidth map1x1 : ℚ) / 2| < (mapWidth map1x1 : ℚ) * (1/5))) := by
  have h : sampleDepths map1x1 objZeroArea.bbox ≠ [] := by
    simp [sampleDepths, rangeClosed, getPix, mapWidth, objZeroArea, map1x1, List.range_succ]
  exact ⟨h, direction_horizontal_only map1x1 objZeroArea scene1x1 h⟩

/-! ## C6 -/

/-- A map whose first row is fine but whose second row has zero width. -/
def mapRagged : DepthMap := [[1/2], []]

/-- `flatMap` of a function that always collects nothing is empty. -/
theorem flatMap_const_nil (l : List (List ℚ)) : (l.flatMap fun _ => ([] : List ℚ)) = [] := by
  induction l with
  | nil => rfl
  | cons a t ih => simp [ih]

/-- The scene analysis throws (`none`) on a non-empty map whose first row
has zero width: no value is ever collected and `allDepths.get(0)` is out
of bounds. -/
theorem analyzeScene_zero_width (m : DepthMap) (hm : m ≠ []) (hw : mapWidth m = 0) :
    analyzeScene m = none := by
  obtain ⟨r, t, rfl⟩ := List.exists_cons_of_ne_nil hm
  have hr : r.length = 0 := by simpa [mapWidth] using hw
  have hr2 : r = [] := List.length_eq_zero.mp hr
  subst hr2
  simp [analyzeScene, gatherAll, flatMap_const_nil, percentileReads, List.insertionSort]

/-- C6 (counterexample): a depth map with a zero-width *later* row is not
rejected: the Java engine throws (caught by the service), the JS fallback
only checks the first row's width and sampling skips missing entries, so
the service reports success, not the claimed explicit failure. -/
theorem zero_width_row_not_failure_counterexample :
    ([] : List ℚ) ∈ mapRagged ∧
    (serviceAnalyzeLabeledObjects true mapRagged [objZeroArea]).isFailure = false ∧
    (serviceAnalyzeLabeledObjects false mapRagged [objZeroArea]).isFailure = false := by
  refine ⟨by simp [mapRagged], ?_, ?_⟩
  · simp [serviceAnalyzeLabeledObjects, analyzeLabeledObjects, analyzeScene, gatherAll,
      mapRagged, analyzeWithJavaScriptFallback, mapWidth, ServiceResult.isFailure]
  · simp [serviceAnalyzeLabeledObjects, mapRagged, analyzeWithJavaScriptFallback, mapWidth,
      ServiceResult.isFailure]

/-- C6 (amended): the service fails on an empty depth map; with a
non-empty map and an empty object list it returns the empty success (the
object-list guard runs before any width check); with a non-empty map,
a non-empty object list and a zero-width *first* row it fails with the
dimension error (on both the native and the fallback path).  A zero-width
later row is not detected (see the counterexample). -/
theorem service_guard_behavior (bridge : Bool) (m : DepthMap) (objs : List LabeledObject) :
    (m = [] → serviceAnalyzeLabeledObjects bridge m objs = .failure "Invalid depth map") ∧
    (m ≠ [] → objs = [] →
      serviceAnalyzeLabeledObjects bridge m objs = .emptySuccess "No objects to analyze") ∧
    (m ≠ [] → objs ≠ [] → mapWidth m = 0 →
      serviceAnalyzeLabeledObjects bridge m objs = .failure "Invalid depth map dimensions") := by
  refine ⟨?_, ?_, ?_⟩
  · intro hm
    simp [serviceAnalyzeLabeledObjects, hm]
  · intro hm hobjs
    simp [serviceAnalyzeLabeledObjects, hm, hobjs]
  · intro hm hobjs hw
    have hscene := analyzeScene_zero_width m hm hw
    have hfb : analyzeWithJavaScriptFallback m objs = .failure "Invalid depth map dimensions" := by
      simp [analyzeWithJavaScriptFallback, hm, hw]
    cases bridge <;>
      simp [serviceAnalyzeLabeledObjects, hm, hobjs, analyzeLabeledObjects, hscene, hfb]

theorem service_guard_behavior_witness :
    (([[], []] : DepthMap) ≠ []) ∧ ([objZeroArea] ≠ ([] : List LabeledObject)) ∧
    mapWidth [[], []] = 0 ∧
    serviceAnalyzeLabeledObjects true [[], []] [objZeroArea] =
      .failure "Invalid depth map dimensions" := by
  refine ⟨by simp, by simp, by simp [mapWidth], ?_⟩
  exact (service_guard_behavior true [[], []] [objZeroArea]).2.2 (by simp) (by simp)
    (by simp [mapWidth])

/-! ## C10 -/

/-- C10: an object whose bounding box contains no in-bounds pixel takes the
early return — its gradient and angle stay 0 and its direction stays
unassigned (`none`) — yet it is still classified (its danger level is
assigned) and it appears in the ranked output. -/
theorem empty_sample_fields_and_ranking (m : DepthMap) (scene : SceneAnalysis)
    (lo : LabeledObject) (objs : List LabeledObject) (out : List DetectedObject)
    (hscene : analyzeScene m = some scene)
    (hsamp : sampleDepths m lo.bbox = [])
    (hmem : lo ∈ objs)
    (hout : analyzeLabeledObjects m objs = some out) :
    (analyzeAndScore m scene lo).depthGradient = 0 ∧
    (analyzeAndScore m scene lo).angleDeg = 0 ∧
    (analyzeAndScore m scene lo).direction = none ∧
    (∃ lvl, (analyzeAndScore m scene lo).danger = some lvl) ∧
    analyzeAndScore m scene lo ∈ out := by
  have hobjs : objs ≠ [] := by
    rintro rfl
    simp at hmem
  refine ⟨?_, ?_, ?_, ⟨_, rfl⟩, ?_⟩
  · simp [analyzeAndScore, analyzeLabeledObject, hsamp]
  · simp [analyzeAndScore, analyzeLabeledObject, hsamp]
  · simp [analyzeAndScore, analyzeLabeledObject, hsamp]
  · rw [analyzeLabeledObjects, if_neg hobjs, hscene] at hout
    simp only [Option.map_some'] at hout
    rw [← Option.some_inj.mp hout]
    exact (List.perm_insertionSort _ _).mem_iff.mpr
      (List.mem_map_of_mem (analyzeAndScore m scene) hmem)

theorem empty_sample_fields_and_ranking_witness :
    analyzeScene map1x1 = some scene1x1 ∧
    sampleDepths map1x1 objOutside.bbox = [] ∧
    objOutside ∈ [objOutside] ∧
    analyzeLabeledObjects map1x1 [objOutside] =
      some [analyzeAndScore map1x1 scene1x1 objOutside] ∧
    ((analyzeAndScore map1x1 scene1x1 objOutside).depthGradient = 0 ∧
     (analyzeAndScore map1x1 scene1x1 objOutside).angleDeg = 0 ∧
     (analyzeAndScore map1x1 scene1x1 objOutside).direction = none ∧
     (∃ lvl, (analyzeAndScore map1x1 scene1x1 objOutside).danger = some lvl) ∧
     analyzeAndScore map1x1 scene1x1 objOutside ∈
       [analyzeAndScore map1x1 scene1x1 objOutside]) := by
  have hsamp : sampleDepths map1x1 objOutside.bbox = [] := by
    simp [sampleDepths, rangeClosed, objOutside, map1x1, mapWidth, List.range_succ]
  have hout : analyzeLabeledObjects map1x1 [objOutside] =
      some [analyzeAndScore map1x1 scene1x1 objOutside] := by
    simp [analyzeLabeledObjects, analyzeScene_map1x1, List.insertionSort, List.orderedInsert]
  exact ⟨analyzeScene_map1x1, hsamp, by simp, hout,
    empty_sample_fields_and_ranking map1x1 scene1x1 objOutside [objOutside] _
      analyzeScene_map1x1 hsamp (by simp) hout⟩

end RCD

namespace RCD

/-! ## Fixtures for the scoring and ranking claims: a 4×3 scene with one
close central object and one far out-of-frame object -/

/-- 4×3 depth map: background 1/10 with a bright 2×2 block (9/10). -/
def mapA : DepthMap :=
  [[1/10, 1/10, 1/10, 1/10],
   [1/10, 9/10, 9/10, 1/10],
   [1/10, 9/10, 9/10, 1/10]]

def sceneA : SceneAnalysis :=
  { min := 1/10, max := 9/10, p25 := 1/10, p50 := 1/10, p75 := 9/10, p90 := 9/10,
    backgroundDepth := 1/10, foregroundThreshold := 9/10 }

theorem analyzeScene_mapA : analyzeScene mapA = some sceneA := by
  norm_num [analyzeScene, mapA, gatherAll, percentileReads, sceneA,
    List.insertionSort, List.orderedInsert]

/-- A close object over the bright block. -/
def objNear : LabeledObject := ⟨"obj_near", "box", ⟨1, 1, 2, 2⟩, 1⟩

/-- A zero-area object far outside the frame (centre `(8, 6)`). -/
def objFar : LabeledObject := ⟨"obj_far", "box", ⟨8, 6, 8, 6⟩, 1⟩

/-- The analysed form of `objFar`: empty sample set, zero statistics. -/
noncomputable def objFarDetected : DetectedObject :=
  { objectId := "obj_far", label := "box", bbox := ⟨8, 6, 8, 6⟩,
    centerX := 8, centerY := 6, maxDepth := 0, medianDepth := 0, depthVariance := 0,
    depthGradient := 0, danger := none, direction := none, angleDeg := 0,
    confidenceScore := 0, reasonForDanger := [] }

theorem objFar_detected : analyzeLabeledObject mapA objFar sceneA = objFarDetected := by
  have hsamp : sampleDepths mapA ({ x1 := 8, y1 := 6, x2 := 8, y2 := 6 } : BBox) = [] := by
    simp [sampleDepths, rangeClosed, getPix, mapWidth, mapA, List.range_succ]
  simp only [analyzeLabeledObject, objFar, hsamp]
  norm_num [objFarDetected]

/-- The analysed form of `objNear`: four samples of 9/10, gradient
`√(288/25)/8` from the Sobel window at `(1, 1)`. -/
noncomputable def objNearDetected : DetectedObject :=
  { objectId := "obj_near", label := "box", bbox := ⟨1, 1, 2, 2⟩,
    centerX := 3/2, centerY := 3/2, maxDepth := 9/10, medianDepth := 9/10,
    depthVariance := 0,
    depthGradient := Real.sqrt ((288/25 : ℚ) : ℝ) / 8,
    danger := none, direction := some "center",
    angleDeg := calculateAngle (3/2) (3/2) 4 3,
    confidenceScore := 0, reasonForDanger := [] }

theorem gradient_mapA_center : calculateLocalGradient mapA 1 1 =
    Real.sqrt ((288/25 : ℚ) : ℝ) / 8 := by
  have ht0 : (0 : ℤ).toNat = 0 := rfl
  have ht1 : (1 : ℤ).toNat = 1 := rfl
  have ht2 : (2 : ℤ).toNat = 2 := rfl
  simp only [calculateLocalGradient]
  norm_num [mapWidth, mapA, getPix, ht0, ht1, ht2]

theorem direction_mapA_center : calculateDirection (3/2) (3/2) 4 3 = "center" := by
  have habs : |(1/2 : ℚ)| = 1/2 := abs_of_pos (by norm_num)
  norm_num [calculateDirection, habs]

theorem objNear_detected : analyzeLabeledObject mapA objNear sceneA = objNearDetected := by
  have hsamp : sampleDepths mapA ({ x1 := 1, y1 := 1, x2 := 2, y2 := 2 } : BBox) =
      [9/10, 9/10, 9/10, 9/10] := by
    simp [sampleDepths, rangeClosed, getPix, mapWidth, mapA, List.range_succ]
  have hjc : jintCast (3/2 : ℚ) = 1 := by
    norm_num [jintCast]
    decide
  have hwA : mapWidth mapA = 4 := rfl
  have hlA : mapA.length = 3 := rfl
  simp only [analyzeLabeledObject, objNear, hsamp]
  rw [if_neg (by simp)]
  simp only [objNearDetected, DetectedObject.mk.injEq, hwA, hlA]
  norm_num [List.insertionSort, List.orderedInsert, hjc, gradient_mapA_center,
    direction_mapA_center]

end RCD

namespace RCD

/-! ## Score evaluation on the fixtures -/

/-- Evaluate the position factor once both squared distances are given as
rational perfect squares. -/
theorem positionScoreOf_eval (obj : DetectedObject) (w h : ℕ) (d mx : ℚ)
    (hd : (obj.centerX - (w : ℚ)/2) * (obj.centerX - (w : ℚ)/2) +
          (obj.centerY - (h : ℚ)/2) * (obj.centerY - (h : ℚ)/2) = d * d)
    (hmx : ((w : ℚ)/2) * ((w : ℚ)/2) + ((h : ℚ)/2) * ((h : ℚ)/2) = mx * mx)
    (hd0 : 0 ≤ d) (hmx0 : 0 ≤ mx) :
    positionScoreOf obj w h =
      if (h : ℚ) * (1/2) < obj.centerY ∧ |obj.centerX - (w : ℚ)/2| < (w : ℚ) * (3/10)
      then (1 - (d : ℝ)/(mx : ℝ)) * (13/10) else 1 - (d : ℝ)/(mx : ℝ) := by
  simp only [positionScoreOf]
  rw [hd, hmx, sqrt_ratCast_sq (d*d) d hd0 rfl, sqrt_ratCast_sq (mx*mx) mx hmx0 rfl]

theorem objFar_position : positionScoreOf objFarDetected 4 3 = -2 := by
  rw [positionScoreOf_eval objFarDetected 4 3 (15/2) (5/2)
    (by norm_num [objFarDetected]) (by norm_num) (by norm_num) (by norm_num)]
  have habs : |(6 : ℚ)| = 6 := abs_of_pos (by norm_num)
  norm_num [objFarDetected, habs]

theorem objNear_position : positionScoreOf objNearDetected 4 3 = 4/5 := by
  rw [positionScoreOf_eval objNearDetected 4 3 (1/2) (5/2)
    (by norm_num [objNearDetected]) (by norm_num) (by norm_num) (by norm_num)]
  norm_num [objNearDetected]

theorem objFar_score : dangerScoreOf objFarDetected sceneA 4 3 = -(29/100) := by
  have hc : closenessScoreOf objFarDetected sceneA = 1/10 := by
    norm_num [closenessScoreOf, objFarDetected, sceneA, fdiv, closenessBuckets, FpVal.gtQ]
  have hr : relativeScoreOf objFarDetected sceneA = 1/10 := by
    norm_num [relativeScoreOf, objFarDetected, sceneA, fdiv, relativeBuckets, FpVal.gtQ]
  have hg : gradientScoreOf objFarDetected = 0 := by
    norm_num [gradientScoreOf, objFarDetected]
  have hs : sizeScoreOf objFarDetected.bbox 4 3 = 0 := by
    norm_num [sizeScoreOf, objFarDetected]
  have hu : uniformityScoreOf objFarDetected = 1 := by
    norm_num [uniformityScoreOf, objFarDetected]
  rw [dangerScoreOf, hc, hr, objFar_position, hg, hs, hu]
  norm_num

theorem objNear_score : dangerScoreOf objNearDetected sceneA 4 3 = 1057/1200 := by
  have hc : closenessScoreOf objNearDetected sceneA = 1 := by
    norm_num [closenessScoreOf, objNearDetected, sceneA, fdiv, closenessBuckets, FpVal.gtQ]
  have hr : relativeScoreOf objNearDetected sceneA = 4/5 := by
    norm_num [relativeScoreOf, objNearDetected, sceneA, fdiv, relativeBuckets, FpVal.gtQ]
  have hg : gradientScoreOf objNearDetected = 1 := by
    have h83 : (8/3 : ℝ) ≤ Real.sqrt ((288/25 : ℚ) : ℝ) := by
      rw [Real.le_sqrt (by norm_num) (by norm_num)]
      push_cast
      norm_num
    have h1 : (1 : ℝ) ≤ objNearDetected.depthGradient * 3 := by
      simp only [objNearDetected]
      linarith
    rw [gradientScoreOf, min_eq_left h1]
  have hs : sizeScoreOf objNearDetected.bbox 4 3 = 5/12 := by
    norm_num [sizeScoreOf, objNearDetected]
  have hu : uniformityScoreOf objNearDetected = 1 := by
    norm_num [uniformityScoreOf, objNearDetected]
  rw [dangerScoreOf, hc, hr, objNear_position, hg, hs, hu]
  norm_num

theorem objFar_scored :
    (analyzeAndScore mapA sceneA objFar).confidenceScore = -(29/100) ∧
    (analyzeAndScore mapA sceneA objFar).danger = some DangerLevel.SAFE := by
  have hwA : mapWidth mapA = 4 := rfl
  have hlA : mapA.length = 3 := rfl
  constructor
  · simp only [analyzeAndScore, objFar_detected, calculateDangerLevel, hwA, hlA, objFar_score]
  · simp only [analyzeAndScore, objFar_detected, calculateDangerLevel, hwA, hlA, objFar_score]
    norm_num
theorem objNear_scored :
    (analyzeAndScore mapA sceneA objNear).confidenceScore = 1057/1200 ∧
    (analyzeAndScore mapA sceneA objNear).danger = some DangerLevel.CRITICAL_COLLISION := by
  have hwA : mapWidth mapA = 4 := rfl
  have hlA : mapA.length = 3 := rfl
  constructor
  · simp only [analyzeAndScore, objNear_detected, calculateDangerLevel, hwA, hlA, objNear_score]
  · simp only [analyzeAndScore, objNear_detected, calculateDangerLevel, hwA, hlA, objNear_score]
    norm_num

end RCD

namespace RCD

/-! ## C7 -/

/-- C7: evaluating the ranking at a concrete failing input.  The input list
is `[objNear, objFar]`, whose analysed danger levels are
`CRITICAL_COLLISION` and `SAFE`; the comparator
`(a, b) -> b.danger.compareTo(a.danger)` sorts by enum ordinal descending,
so the returned order is `[SAFE, CRITICAL_COLLISION]` — the *least*
dangerous object first, contradicting the source's own comment
"Sort by danger level (most dangerous first)" and the spec's descending
severity. -/
theorem ranking_least_dangerous_first_bug :
    Option.map (fun out => out.map fun o => o.danger)
        (analyzeLabeledObjects mapA [objNear, objFar]) =
      some [some DangerLevel.SAFE, some DangerLevel.CRITICAL_COLLISION] ∧
    Option.map (fun out => out.map fun o => o.objectId)
        (analyzeLabeledObjects mapA [objNear, objFar]) =
      some ["obj_far", "obj_near"] := by
  have hidN : (analyzeAndScore mapA sceneA objNear).objectId = "obj_near" := by
    simp [analyzeAndScore, objNear_detected, objNearDetected]
  have hidF : (analyzeAndScore mapA sceneA objFar).objectId = "obj_far" := by
    simp [analyzeAndScore, objFar_detected, objFarDetected]
  have hsort : analyzeLabeledObjects mapA [objNear, objFar] =
      some [analyzeAndScore mapA sceneA objFar, analyzeAndScore mapA sceneA objNear] := by
    rw [analyzeLabeledObjects, if_neg (by simp), analyzeScene_mapA]
    simp only [Option.map_some', List.map_cons, List.map_nil]
    congr 1
    simp only [List.insertionSort, List.orderedInsert]
    rw [if_neg]
    simp only [objFar_scored.2, objNear_scored.2, dangerOrd, DangerLevel.ord]
    norm_num
  rw [hsort]
  exact ⟨by simp [objFar_scored.2, objNear_scored.2], by simp [hidF, hidN]⟩

/-! ## C5 -/

/-- C5 (counterexample): `objFar` satisfies the stated bbox invariant
(`0 ≤ x1 ≤ x2`, `0 ≤ y1 ≤ y2`), yet its centre lies far outside the frame,
the unclamped position factor is `-2`, and the total danger score is
`-29/100 < 0` — outside the claimed interval `[0, 1.3]`. -/
theorem danger_score_negative_counterexample :
    analyzeScene mapA = some sceneA ∧
    (0 ≤ objFar.bbox.x1 ∧ objFar.bbox.x1 ≤ objFar.bbox.x2 ∧
     0 ≤ objFar.bbox.y1 ∧ objFar.bbox.y1 ≤ objFar.bbox.y2) ∧
    (analyzeAndScore mapA sceneA objFar).confidenceScore < 0 := by
  refine ⟨analyzeScene_mapA, by norm_num [objFar], ?_⟩
  rw [objFar_scored.1]
  norm_num

end RCD

namespace RCD

/-! ## Bounds machinery for the amended C5 -/

theorem analyzeScene_dims (m : DepthMap) (s : SceneAnalysis) (h : analyzeScene m = some s) :
    1 ≤ mapWidth m ∧ 1 ≤ m.length := by
  have hm : m ≠ [] := by
    rintro rfl
    simp [analyzeScene, gatherAll] at h
  constructor
  · by_contra hw
    have hw0 : mapWidth m = 0 := by omega
    rw [analyzeScene_zero_width m hm hw0] at h
    exact Option.noConfusion h
  · have := List.length_pos.mpr hm
    omega

theorem closenessBuckets_bounds (v : FpVal) :
    1/10 ≤ closenessBuckets v ∧ closenessBuckets v ≤ 1 := by
  rw [closenessBuckets]
  split_ifs <;> norm_num

theorem relativeBuckets_bounds (v : FpVal) :
    1/10 ≤ relativeBuckets v ∧ relativeBuckets v ≤ 4/5 := by
  rw [relativeBuckets]
  split_ifs <;> norm_num

theorem uniformityScoreOf_bounds (obj : DetectedObject) :
    3/10 ≤ uniformityScoreOf obj ∧ uniformityScoreOf obj ≤ 1 := by
  rw [uniformityScoreOf]
  split_ifs <;> norm_num

theorem sizeScoreOf_bounds (bbox : BBox) (w h : ℕ)
    (harea : 0 ≤ (bbox.x2 - bbox.x1) * (bbox.y2 - bbox.y1)) (hw : 1 ≤ w) (hh : 1 ≤ h) :
    0 ≤ sizeScoreOf bbox w h ∧ sizeScoreOf bbox w h ≤ 1 := by
  rw [sizeScoreOf]
  refine ⟨le_min (by norm_num) ?_, min_le_left _ _⟩
  apply mul_nonneg _ (by norm_num)
  apply div_nonneg (by exact_mod_cast harea)
  positivity

theorem calculateLocalGradient_nonneg (m : DepthMap) (x y : ℤ) :
    0 ≤ calculateLocalGradient m x y := by
  simp only [calculateLocalGradient]
  split_ifs
  · exact le_refl 0
  · positivity

theorem analyzeLabeledObject_gradient_nonneg (m : DepthMap) (lo : LabeledObject)
    (scene : SceneAnalysis) : 0 ≤ (analyzeLabeledObject m lo scene).depthGradient := by
  simp only [analyzeLabeledObject]
  split_ifs <;> simp [calculateLocalGradient_nonneg]

theorem gradientScoreOf_bounds (obj : DetectedObject) (h : 0 ≤ obj.depthGradient) :
    0 ≤ gradientScoreOf obj ∧ gradientScoreOf obj ≤ 1 := by
  rw [gradientScoreOf]
  exact ⟨le_min (by norm_num) (by positivity), min_le_left _ _⟩

theorem analyzeLabeledObject_proj (m : DepthMap) (lo : LabeledObject) (scene : SceneAnalysis) :
    (analyzeLabeledObject m lo scene).bbox = lo.bbox ∧
    (analyzeLabeledObject m lo scene).centerX = ((lo.bbox.x1 + lo.bbox.x2 : ℤ) : ℚ) / 2 ∧
    (analyzeLabeledObject m lo scene).centerY = ((lo.bbox.y1 + lo.bbox.y2 : ℤ) : ℚ) / 2 := by
  refine ⟨?_, ?_, ?_⟩ <;> (simp only [analyzeLabeledObject]; split_ifs <;> rfl)

theorem positionScoreOf_bounds (obj : DetectedObject) (w h : ℕ) (hw : 1 ≤ w) (hh : 1 ≤ h)
    (hc : (obj.centerX - (w : ℚ)/2) * (obj.centerX - (w : ℚ)/2) +
          (obj.centerY - (h : ℚ)/2) * (obj.centerY - (h : ℚ)/2) ≤
          ((w : ℚ)/2) * ((w : ℚ)/2) + ((h : ℚ)/2) * ((h : ℚ)/2)) :
    0 ≤ positionScoreOf obj w h ∧ positionScoreOf obj w h ≤ 13/10 := by
  have hwq : (1 : ℚ) ≤ (w : ℚ) := by exact_mod_cast hw
  have hmq : 0 < ((w : ℚ)/2) * ((w : ℚ)/2) + ((h : ℚ)/2) * ((h : ℚ)/2) := by
    have hhq : (1 : ℚ) ≤ (h : ℚ) := by exact_mod_cast hh
    nlinarith
  have hsle : Real.sqrt (((obj.centerX - (w : ℚ)/2) * (obj.centerX - (w : ℚ)/2) +
        (obj.centerY - (h : ℚ)/2) * (obj.centerY - (h : ℚ)/2) : ℚ) : ℝ) ≤
      Real.sqrt ((((w : ℚ)/2) * ((w : ℚ)/2) + ((h : ℚ)/2) * ((h : ℚ)/2) : ℚ) : ℝ) :=
    Real.sqrt_le_sqrt (by exact_mod_cast hc)
  have hspos : 0 < Real.sqrt ((((w : ℚ)/2) * ((w : ℚ)/2) + ((h : ℚ)/2) * ((h : ℚ)/2) : ℚ) : ℝ) :=
    Real.sqrt_pos.mpr (by exact_mod_cast hmq)
  have hr1 : Real.sqrt (((obj.centerX - (w : ℚ)/2) * (obj.centerX - (w : ℚ)/2) +
        (obj.centerY - (h : ℚ)/2) * (obj.centerY - (h : ℚ)/2) : ℚ) : ℝ) /
      Real.sqrt ((((w : ℚ)/2) * ((w : ℚ)/2) + ((h : ℚ)/2) * ((h : ℚ)/2) : ℚ) : ℝ) ≤ 1 :=
    (div_le_one hspos).mpr hsle
  have hr0 : 0 ≤ Real.sqrt (((obj.centerX - (w : ℚ)/2) * (obj.centerX - (w : ℚ)/2) +
        (obj.centerY - (h : ℚ)/2) * (obj.centerY - (h : ℚ)/2) : ℚ) : ℝ) /
      Real.sqrt ((((w : ℚ)/2) * ((w : ℚ)/2) + ((h : ℚ)/2) * ((h : ℚ)/2) : ℚ) : ℝ) :=
    div_nonneg (Real.sqrt_nonneg _) hspos.le
  constructor <;> (simp only [positionScoreOf]; split_ifs) <;> linarith

/-- C5 (amended): for a labeled object whose bounding box satisfies the
input invariant and whose centre lies within the frame's half-diagonal of
the frame centre (in particular, any box contained in the frame), the
danger score lies in `[0, 1.3]`.  (An object violating the centre
condition can push the unclamped position factor arbitrarily negative —
see the counterexample.) -/
theorem danger_score_bounds_in_frame (m : DepthMap) (scene : SceneAnalysis) (lo : LabeledObject)
    (hscene : analyzeScene m = some scene)
    (hx1 : 0 ≤ lo.bbox.x1) (hx12 : lo.bbox.x1 ≤ lo.bbox.x2)
    (hy1 : 0 ≤ lo.bbox.y1) (hy12 : lo.bbox.y1 ≤ lo.bbox.y2)
    (hc : (((lo.bbox.x1 + lo.bbox.x2 : ℤ) : ℚ)/2 - (mapWidth m : ℚ)/2) *
          (((lo.bbox.x1 + lo.bbox.x2 : ℤ) : ℚ)/2 - (mapWidth m : ℚ)/2) +
          (((lo.bbox.y1 + lo.bbox.y2 : ℤ) : ℚ)/2 - (m.length : ℚ)/2) *
          (((lo.bbox.y1 + lo.bbox.y2 : ℤ) : ℚ)/2 - (m.length : ℚ)/2) ≤
          ((mapWidth m : ℚ)/2) * ((mapWidth m : ℚ)/2) +
          ((m.length : ℚ)/2) * ((m.length : ℚ)/2)) :
    0 ≤ (analyzeAndScore m scene lo).confidenceScore ∧
    (analyzeAndScore m scene lo).confidenceScore ≤ 13/10 := by
  obtain ⟨hw, hh⟩ := analyzeScene_dims m scene hscene
  obtain ⟨hbbox, hcx, hcy⟩ := analyzeLabeledObject_proj m lo scene
  have hconf : (analyzeAndScore m scene lo).confidenceScore =
      dangerScoreOf (analyzeLabeledObject m lo scene) scene (mapWidth m) m.length := by
    simp only [analyzeAndScore, calculateDangerLevel]
  have h1 : 1/10 ≤ closenessScoreOf (analyzeLabeledObject m lo scene) scene ∧
      closenessScoreOf (analyzeLabeledObject m lo scene) scene ≤ 1 := by
    rw [closenessScoreOf]; exact closenessBuckets_bounds _
  have h2 : 1/10 ≤ relativeScoreOf (analyzeLabeledObject m lo scene) scene ∧
      relativeScoreOf (analyzeLabeledObject m lo scene) scene ≤ 4/5 := by
    rw [relativeScoreOf]; exact relativeBuckets_bounds _
  have h3 := positionScoreOf_bounds (analyzeLabeledObject m lo scene) (mapWidth m) m.length
    hw hh (by rw [hcx, hcy]; exact hc)
  have h4 := gradientScoreOf_bounds (analyzeLabeledObject m lo scene)
    (analyzeLabeledObject_gradient_nonneg m lo scene)
  have h5 := sizeScoreOf_bounds (analyzeLabeledObject m lo scene).bbox (mapWidth m) m.length
    (by rw [hbbox]; nlinarith) hw hh
  have h6 := uniformityScoreOf_bounds (analyzeLabeledObject m lo scene)
  have c1a := (Rat.cast_le (K := ℝ)).mpr h1.1
  have c1b := (Rat.cast_le (K := ℝ)).mpr h1.2
  have c2a := (Rat.cast_le (K := ℝ)).mpr h2.1
  have c2b := (Rat.cast_le (K := ℝ)).mpr h2.2
  have c5a := (Rat.cast_le (K := ℝ)).mpr h5.1
  have c5b := (Rat.cast_le (K := ℝ)).mpr h5.2
  have c6a := (Rat.cast_le (K := ℝ)).mpr h6.1
  have c6b := (Rat.cast_le (K := ℝ)).mpr h6.2
  push_cast at c1a c1b c2a c2b c5a c5b c6a c6b
  rw [hconf, dangerScoreOf]
  constructor <;> linarith [h3.1, h3.2, h4.1, h4.2]

theorem danger_score_bounds_in_frame_witness :
    analyzeScene mapA = some sceneA ∧
    (0 ≤ objNear.bbox.x1 ∧ objNear.bbox.x1 ≤ objNear.bbox.x2 ∧
     0 ≤ objNear.bbox.y1 ∧ objNear.bbox.y1 ≤ objNear.bbox.y2) ∧
    (((objNear.bbox.x1 + objNear.bbox.x2 : ℤ) : ℚ)/2 - (mapWidth mapA : ℚ)/2) *
      (((objNear.bbox.x1 + objNear.bbox.x2 : ℤ) : ℚ)/2 - (mapWidth mapA : ℚ)/2) +
      (((objNear.bbox.y1 + objNear.bbox.y2 : ℤ) : ℚ)/2 - (mapA.length : ℚ)/2) *
      (((objNear.bbox.y1 + objNear.bbox.y2 : ℤ) : ℚ)/2 - (mapA.length : ℚ)/2) ≤
      ((mapWidth mapA : ℚ)/2) * ((mapWidth mapA : ℚ)/2) +
      ((mapA.length : ℚ)/2) * ((mapA.length : ℚ)/2) ∧
    (0 ≤ (analyzeAndScore mapA sceneA objNear).confidenceScore ∧
     (analyzeAndScore mapA sceneA objNear).confidenceScore ≤ 13/10) := by
  have hbox : 0 ≤ objNear.bbox.x1 ∧ objNear.bbox.x1 ≤ objNear.bbox.x2 ∧
      0 ≤ objNear.bbox.y1 ∧ objNear.bbox.y1 ≤ objNear.bbox.y2 := by
    norm_num [objNear]
  have hc : (((objNear.bbox.x1 + objNear.bbox.x2 : ℤ) : ℚ)/2 - (mapWidth mapA : ℚ)/2) *
      (((objNear.bbox.x1 + objNear.bbox.x2 : ℤ) : ℚ)/2 - (mapWidth mapA : ℚ)/2) +
      (((objNear.bbox.y1 + objNear.bbox.y2 : ℤ) : ℚ)/2 - (mapA.length : ℚ)/2) *
      (((objNear.bbox.y1 + objNear.bbox.y2 : ℤ) : ℚ)/2 - (mapA.length : ℚ)/2) ≤
      ((mapWidth mapA : ℚ)/2) * ((mapWidth mapA : ℚ)/2) +
      ((mapA.length : ℚ)/2) * ((mapA.length : ℚ)/2) := by
    norm_num [objNear, mapWidth, mapA]
  exact ⟨analyzeScene_mapA, hbox, hc,
    danger_score_bounds_in_frame mapA sceneA objNear analyzeScene_mapA
      hbox.1 hbox.2.1 hbox.2.2.1 hbox.2.2.2 hc⟩

end RCD
